import Mathlib

/-!
A shallow embedding of the authentication core of the Next-Step backend
(FastAPI/SQLAlchemy school-management API): the user data model
(`app/models/user.py`), configuration (`app/config.py`), the password and
JWT token service (`app/services/auth.py`), the Google federated-identity
service (`app/services/google_auth.py`), the authorization dependencies
(`app/dependencies.py`) and the auth router (`app/routers/auth.py`).

Conventions of the embedding:
* The relational store is a `List User`; a SQLAlchemy
  `select(User).where(col == v)` followed by `scalar_one_or_none()` is the
  first list element whose column equals `v` (exact equality, as in the
  source's PostgreSQL string columns with default collation).
* Python exceptions are `Except` errors; an uncaught exception is an
  `Except.error` value of a constructor distinct from the handled
  `HTTPException` outcomes.
* Python truthiness on optional strings (`if not user.avatar`,
  `if not user.hashed_password`, `if expires_delta`) is modelled
  explicitly: `none` and `some ""` are falsy, `some s` with `s ≠ ""` is
  truthy, and a zero timedelta is falsy.
* The `python-jose` library calls `jwt.encode` / `jwt.decode` are modelled
  symbolically: an encoded token records its payload, signing key and
  algorithm; decoding checks the signature key, the allowed algorithms,
  the `exp` claim against the current time, and that a present `sub`
  claim is a string (the registered-claim validations relevant to this
  service, which only ever issues `sub` and `exp`). Timestamps are
  integers (Unix seconds).
* The `passlib` CryptContext with `schemes=["argon2"]` identifies a hash
  by its `$argon2` PHC prefix and raises `UnknownHashError` on a hash it
  cannot identify; the argon2 verification itself is an abstract oracle
  `String → String → Bool`.
-/

set_option autoImplicit false

namespace NextStep

/-- `UserRole` from `app/models/user.py`: closed enumeration
ADMIN / TEACHER / STUDENT. -/
inductive UserRole where
  | ADMIN
  | TEACHER
  | STUDENT
  deriving DecidableEq, Repr

/-- The `users` table row from `app/models/user.py` (timestamps and the
notifications relationship are omitted: no claim mentions them).
`hashed_password`, `avatar`, `department` and `google_id` are nullable
columns. -/
structure User where
  id : Nat
  email : String
  name : String
  hashed_password : Option String
  role : UserRole
  avatar : Option String
  department : Option String
  google_id : Option String
  deriving DecidableEq, Repr

/-- `Settings` from `app/config.py`, restricted to the fields the
authentication core reads.  Note the Google OAuth field is the plural
`google_client_ids`, a list of audience identifiers (web / iOS /
Android). -/
structure Settings where
  secret_key : String
  algorithm : String := "HS256"
  access_token_expire_minutes : Int := 1440
  google_client_ids : List String :=
    ["111-web.apps.googleusercontent.com",
     "222-ios.apps.googleusercontent.com",
     "333-android.apps.googleusercontent.com"]
  deriving DecidableEq, Repr

/-- A Python attribute value of a `Settings` object. -/
inductive AttrVal where
  | str (s : String)
  | int (n : Int)
  | strList (l : List String)
  deriving DecidableEq, Repr

/-- Python attribute lookup on a `Settings` object (pydantic models raise
`AttributeError` for any name that is not a declared field, so the lookup
is partial: `none` models the raised `AttributeError`). -/
def Settings.getattr (s : Settings) (name : String) : Option AttrVal :=
  if name = "secret_key" then some (.str s.secret_key)
  else if name = "algorithm" then some (.str s.algorithm)
  else if name = "access_token_expire_minutes" then
    some (.int s.access_token_expire_minutes)
  else if name = "google_client_ids" then some (.strList s.google_client_ids)
  else none

/-- Python truthiness of an optional string column: `None` and `""` are
falsy. -/
def truthy : Option String → Bool
  | none => false
  | some s => s ≠ ""

/-! ## JSON claim dictionaries -/

/-- A JSON value stored in a JWT claims dictionary (this service only
ever stores strings and the integer `exp` timestamp). -/
inductive JValue where
  | str (s : String)
  | int (n : Int)
  deriving DecidableEq, Repr

/-- A Python dict of JWT claims, as an association list. -/
abbrev Claims := List (String × JValue)

/-- `d.get(k)` on a claims dict: first binding of the key, if any. -/
def dictGet : Claims → String → Option JValue
  | [], _ => none
  | (k', v) :: rest, k => if k' = k then some v else dictGet rest k

/-- `d.update({k: v})` on a claims dict: replace the binding of `k`
(or append it). -/
def dictSet : Claims → String → JValue → Claims
  | [], k, v => [(k, v)]
  | (k', v') :: rest, k, v =>
      if k' = k then (k, v) :: rest else (k', v') :: dictSet rest k v

theorem dictGet_dictSet_self (d : Claims) (k : String) (v : JValue) :
    dictGet (dictSet d k v) k = some v := by
  induction d with
  | nil => simp [dictSet, dictGet]
  | cons hd tl ih =>
      obtain ⟨k', v'⟩ := hd
      by_cases h : k' = k <;> simp [dictSet, dictGet, h, ih]

theorem dictGet_dictSet_ne (d : Claims) (k k' : String) (v : JValue)
    (h : k' ≠ k) : dictGet (dictSet d k v) k' = dictGet d k' := by
  have hk : k ≠ k' := Ne.symm h
  induction d with
  | nil => simp [dictSet, dictGet, hk]
  | cons hd tl ih =>
      obtain ⟨k₀, v₀⟩ := hd
      by_cases h₀ : k₀ = k
      · subst h₀
        simp [dictSet, dictGet, hk]
      · simp [dictSet, dictGet, h₀, ih]

/-! ## python-jose JWT model -/

/-- The result of `jwt.encode`: either a well-formed signed token
(payload, signing key, algorithm) or an arbitrary string that is not a
structurally valid JWT. -/
inductive Token where
  | signed (payload : Claims) (key : String) (alg : String)
  | malformed (raw : String)
  deriving DecidableEq, Repr

/-- `jose.JWTError` and its subclasses. -/
inductive JWTError where
  | malformedToken
  | badSignature
  | badAlgorithm
  | expiredSignature
  | claimsError
  deriving DecidableEq, Repr

/-- `jose.jwt.encode(payload, key, algorithm)`. -/
def jwtEncode (payload : Claims) (key alg : String) : Token :=
  .signed payload key alg

/-- `jose.jwt.decode(token, key, algorithms)` at current time `now`:
structural validity, then signature against `key`, then the algorithm
allow-list, then validation of the registered claims this service uses —
`exp` must be an integer in the future when present, a present `sub`
must be a string. -/
def jwtDecode (t : Token) (key : String) (algs : List String) (now : Int) :
    Except JWTError Claims :=
  match t with
  | .malformed _ => .error .malformedToken
  | .signed payload k a =>
      if k ≠ key then .error .badSignature
      else if a ∉ algs then .error .badAlgorithm
      else
        match dictGet payload "exp" with
        | some (.str _) => .error .claimsError
        | some (.int e) =>
            if e < now then .error .expiredSignature
            else
              match dictGet payload "sub" with
              | some (.int _) => .error .claimsError
              | _ => .ok payload
        | none =>
            match dictGet payload "sub" with
            | some (.int _) => .error .claimsError
            | _ => .ok payload

/-! ## Token service (`app/services/auth.py`) -/

/-- `create_access_token(data, expires_delta)` at current time `now`
(`expires_delta` in seconds; `if expires_delta:` is Python truthiness, so
a zero timedelta falls back to the configured default). -/
def create_access_token (s : Settings) (data : Claims)
    (expires_delta : Option Int) (now : Int) : Token :=
  let to_encode := data
  let expire : Int :=
    match expires_delta with
    | some d => if d = 0 then now + s.access_token_expire_minutes * 60 else now + d
    | none => now + s.access_token_expire_minutes * 60
  jwtEncode (dictSet to_encode "exp" (.int expire)) s.secret_key s.algorithm

/-- `decode_token(token)`: decode and verify, catching `JWTError` and
returning `None` on any failure. -/
def decode_token (s : Settings) (t : Token) (now : Int) : Option Claims :=
  match jwtDecode t s.secret_key [s.algorithm] now with
  | .ok payload => some payload
  | .error _ => none

/-! ## Relational store lookups

`select(User).where(col == v)` + `scalar_one_or_none()` over the list of
rows: first row whose column equals `v` exactly (PostgreSQL string
equality with default collation is case-sensitive). -/

/-- `select(User).where(User.email == email)`. -/
def findByEmail : List User → String → Option User
  | [], _ => none
  | u :: rest, e => if u.email = e then some u else findByEmail rest e

/-- `select(User).where(User.google_id == gid)` (the query compares the
nullable column against the given string). -/
def findByGoogleId : List User → String → Option User
  | [], _ => none
  | u :: rest, g =>
      if u.google_id = some g then some u else findByGoogleId rest g

/-- `select(User).where(User.id == uid)`. -/
def findById : List User → Int → Option User
  | [], _ => none
  | u :: rest, i => if (u.id : Int) = i then some u else findById rest i

/-- The autoincrement primary key assigned by the store on insert. -/
def nextId (db : List User) : Nat :=
  (db.map (·.id)).foldr max 0 + 1

/-- Committing an in-session mutation of the row with id `uid`: every
row with that id is replaced by the updated row. -/
def updateUser (db : List User) (uid : Nat) (u' : User) : List User :=
  db.map (fun x => if x.id = uid then u' else x)

/-! ## Credential store (`app/services/auth.py`, passlib CryptContext) -/

/-- `passlib.exc.UnknownHashError`, raised by `CryptContext.verify` when
the stored hash cannot be identified as one of the configured schemes. -/
inductive PasslibError where
  | unknownHash
  deriving DecidableEq, Repr

/-- Whether the second character list starts the first (computable over
`String.toList` so that concrete instances evaluate in the kernel). -/
def startsWithChars : List Char → List Char → Bool
  | _, [] => true
  | [], _ :: _ => false
  | c :: cs, p :: ps => if c = p then startsWithChars cs ps else false

/-- The context `CryptContext(schemes=["argon2"])` identifies a hash by
the argon2 PHC-format marker beginning the string. -/
def argon2Identified (h : String) : Bool :=
  startsWithChars h.toList "$argon2".toList

/-- `verify_password(plain_password, hashed_password)`: a direct call to
`pwd_context.verify`, which raises `UnknownHashError` on an
unidentifiable hash and otherwise runs the argon2 check (abstracted as
the oracle `argonVerify`). -/
def verify_password (argonVerify : String → String → Bool)
    (plain_password hashed_password : String) : Except PasslibError Bool :=
  if argon2Identified hashed_password then
    .ok (argonVerify plain_password hashed_password)
  else
    .error .unknownHash

/-! ## Authenticator (`app/services/auth.py` / `app/routers/auth.py`) -/

/-- `authenticate_user(db, email, password)`: find the user by email,
return `None` when absent, when the user has no (truthy) password hash,
or when the password fails verification; an exception from
`verify_password` propagates. -/
def authenticate_user (argonVerify : String → String → Bool)
    (db : List User) (email password : String) :
    Except PasslibError (Option User) :=
  match findByEmail db email with
  | none => .ok none
  | some user =>
      match user.hashed_password with
      | none => .ok none
      | some h =>
          if h = "" then .ok none
          else
            match verify_password argonVerify password h with
            | .error e => .error e
            | .ok true => .ok (some user)
            | .ok false => .ok none

/-- `LoginRequest` from `app/schemas/auth.py`. -/
structure LoginRequest where
  email : String
  password : String
  deriving DecidableEq, Repr

/-- What the `POST /api/v1/auth/login` route can raise past its body:
an `HTTPException` (handled protocol failure) or an uncaught Python
exception from passlib. -/
inductive LoginError where
  | http (statusCode : Nat) (detail : String)
  | passlib (e : PasslibError)
  deriving DecidableEq, Repr

/-- The `login` route handler of `app/routers/auth.py`: authenticate,
map `None` to HTTP 401 "Invalid email or password", and on success mint
a token on `{"sub": str(user.id)}`. -/
def login (s : Settings) (argonVerify : String → String → Bool)
    (db : List User) (request : LoginRequest) (now : Int) :
    Except LoginError (Token × User) :=
  match authenticate_user argonVerify db request.email request.password with
  | .error e => .error (.passlib e)
  | .ok none => .error (.http 401 "Invalid email or password")
  | .ok (some user) =>
      .ok (create_access_token s [("sub", .str (toString user.id))] none now,
           user)

/-! ## Authorization gate (`app/dependencies.py`) -/

/-- What `get_current_user` can raise: an `HTTPException` or the
uncaught `ValueError` from `int(user_id)`. -/
inductive AuthError where
  | http (statusCode : Nat) (detail : String)
  | pyValueError
  deriving DecidableEq, Repr

/-- The numeric value of a decimal digit character. -/
def decDigit? (c : Char) : Option Nat :=
  if '0' ≤ c ∧ c ≤ '9' then some (c.toNat - '0'.toNat) else none

/-- Accumulate a decimal number over a character list, failing on any
non-digit. -/
def decNatAux : List Char → Nat → Option Nat
  | [], acc => some acc
  | c :: cs, acc =>
      match decDigit? c with
      | none => none
      | some d => decNatAux cs (acc * 10 + d)

/-- Parse a non-empty list of decimal digits. -/
def decNat? : List Char → Option Nat
  | [] => none
  | cs => decNatAux cs 0

/-- Python `int(x)` applied to a JSON claim value: an integer is
returned as-is, a string is parsed as an (optionally negated) decimal
integer, and an unparseable string raises `ValueError` (`none`). -/
def pyInt : JValue → Option Int
  | .int n => some n
  | .str s =>
      match s.toList with
      | '-' :: cs => (decNat? cs).map (fun n => -(n : Int))
      | cs => (decNat? cs).map (fun n => (n : Int))

/-- `get_current_user(credentials, db)` from `app/dependencies.py`:
decode the bearer token, 401 when invalid, 401 when the payload has no
`sub`, then `int(user_id)` — whose `ValueError` is NOT caught — then
load the user by id, 401 when absent. -/
def get_current_user (s : Settings) (db : List User) (token : Token)
    (now : Int) : Except AuthError User :=
  match decode_token s token now with
  | none => .error (.http 401 "Invalid or expired token")
  | some payload =>
      match dictGet payload "sub" with
      | none => .error (.http 401 "Invalid token payload")
      | some v =>
          match pyInt v with
          | none => .error .pyValueError
          | some uid =>
              match findById db uid with
              | none => .error (.http 401 "User not found")
              | some user => .ok user

/-! ## Federated identity resolver (`app/services/google_auth.py`) -/

/-- The verified payload returned by
`google.oauth2.id_token.verify_oauth2_token` (the fields this service
reads; `name` and `picture` are optional in the payload). -/
structure IdInfo where
  iss : String
  sub : String
  email : String
  name : Option String
  picture : Option String
  deriving DecidableEq, Repr

/-- The user-info dict built by `verify_google_token` and consumed by
`get_or_create_google_user`. -/
structure GoogleData where
  google_id : String
  email : String
  name : String
  avatar : Option String
  deriving DecidableEq, Repr

/-- What `verify_google_token` can raise: the `AttributeError` from
reading a `Settings` field that does not exist (uncaught — only
`ValueError` is caught) or a `GoogleAuthError`. -/
inductive GoogleError where
  | attributeError
  | googleAuthError (msg : String)
  deriving DecidableEq, Repr

/-- `verify_google_token(token)` from `app/services/google_auth.py`.
The body calls
`id_token.verify_oauth2_token(token, requests.Request(), settings.google_client_id)`:
the audience argument is the result of the attribute lookup
`settings.google_client_id`, so a missing attribute raises
`AttributeError` before the provider is contacted.  `googleVerify`
abstracts the provider call (network + signature check) on the raw token
and the audience value passed; its `ValueError` (`Except.error`) is
caught and re-raised as `GoogleAuthError`, and a verified payload whose
issuer is not one of Google's two canonical issuer strings raises
`GoogleAuthError` as well. -/
def verify_google_token (s : Settings)
    (googleVerify : String → AttrVal → Except String IdInfo)
    (token : String) : Except GoogleError GoogleData :=
  match s.getattr "google_client_id" with
  | none => .error .attributeError
  | some audience =>
      match googleVerify token audience with
      | .error e => .error (.googleAuthError ("Invalid token: " ++ e))
      | .ok idinfo =>
          if idinfo.iss = "accounts.google.com" ∨
             idinfo.iss = "https://accounts.google.com" then
            .ok { google_id := idinfo.sub
                  email := idinfo.email
                  name := idinfo.name.getD ""
                  avatar := idinfo.picture }
          else
            .error (.googleAuthError "Invalid token issuer")

/-- Scenario 2 of `get_or_create_google_user`: the in-session mutation
linking a Google account onto the user found by email —
`user.google_id = google_data["google_id"]`, and
`user.avatar = google_data["avatar"]` exactly when `not user.avatar and
google_data.get("avatar")` (Python truthiness on both sides). -/
def linkGoogle (user : User) (google_data : GoogleData) : User :=
  { user with
    google_id := some google_data.google_id
    avatar :=
      if ¬ truthy user.avatar ∧ truthy google_data.avatar then
        google_data.avatar
      else user.avatar }

/-- Scenario 3 of `get_or_create_google_user`: the freshly constructed
`User(...)` row — Google id, email, name, avatar, role STUDENT, no
password — with the id the store assigns on insert. -/
def newGoogleUser (db : List User) (google_data : GoogleData) : User :=
  { id := nextId db
    email := google_data.email
    name := google_data.name
    hashed_password := none
    role := .STUDENT
    avatar := google_data.avatar
    department := none
    google_id := some google_data.google_id }

/-- `get_or_create_google_user(db, google_data)` from
`app/services/google_auth.py`: find by `google_id`; else find by email
and link the Google account; else create a new STUDENT user with no
password.  Returns the resulting user and the store after commit. -/
def get_or_create_google_user (db : List User) (google_data : GoogleData) :
    User × List User :=
  match findByGoogleId db google_data.google_id with
  | some user => (user, db)
  | none =>
      match findByEmail db google_data.email with
      | some user =>
          (linkGoogle user google_data,
           updateUser db user.id (linkGoogle user google_data))
      | none =>
          (newGoogleUser db google_data, db ++ [newGoogleUser db google_data])

/-! ## Registration (`app/routers/auth.py`) -/

/-- `UserCreate` from `app/schemas/user.py`: the registration request
body.  The `role` field carries the pydantic default `STUDENT`, applied
when the field is omitted from the request. -/
structure UserCreate where
  name : String
  email : String
  department : Option String := none
  password : String
  role : UserRole := .STUDENT
  deriving DecidableEq, Repr

/-- The `register` route handler of `app/routers/auth.py`: reject an
already-registered email with HTTP 400, otherwise create the user with
the hashed password and the request's role.  The route has no
authentication dependency: the handler receives no caller identity and
performs no role check (`hashPassword` abstracts `hash_password`).
Returns the created user and the store after commit. -/
def register (hashPassword : String → String) (db : List User)
    (user_data : UserCreate) : Except LoginError (User × List User) :=
  match findByEmail db user_data.email with
  | some _ => .error (.http 400 "Email already registered")
  | none =>
      let user : User :=
        { id := nextId db
          email := user_data.email
          name := user_data.name
          hashed_password := some (hashPassword user_data.password)
          role := user_data.role
          avatar := none
          department := user_data.department
          google_id := none }
      .ok (user, db ++ [user])

/-! ## Concrete fixtures for closed evaluations -/

/-- A concrete configuration (defaults of `app/config.py` plus a
secret). -/
def testSettings : Settings := { secret_key := "testsecret" }

/-- A stored password-based user with mixed-case email and a well-formed
argon2 hash. -/
def alice : User :=
  { id := 1, email := "A@x.com", name := "Alice",
    hashed_password := some "$argon2id$v=19$m=65536,t=3,p=4$c2FsdA$aGFzaA",
    role := .STUDENT, avatar := none, department := none, google_id := none }

/-- A stored federation-only user (no password hash). -/
def bob : User :=
  { id := 2, email := "b@x.com", name := "Bob",
    hashed_password := none, role := .STUDENT,
    avatar := some "https://pic/b", department := none,
    google_id := some "google-bob" }

/-- A verified Google payload whose email matches `alice` up to letter
case only. -/
def gLower : GoogleData :=
  { google_id := "google-new", email := "a@x.com", name := "Alice",
    avatar := some "https://pic/a" }

/-! ## Claims -/

/-- C1: the claim states that `verify_google_token` attempts
verification of the raw Google ID token against each of the configured
audience identifiers in order, keeping the last failure.  On the code
this loop does not exist: the body passes `settings.google_client_id` to
the provider call, but `Settings` declares only the plural
`google_client_ids`, so every call raises an uncaught `AttributeError`
(only `ValueError` is caught) before any audience is attempted — for
every configuration, every provider behaviour and every token. -/
theorem C1_verify_identity_attribute_error (s : Settings)
    (googleVerify : String → AttrVal → Except String IdInfo)
    (token : String) :
    verify_google_token s googleVerify token = .error .attributeError := by
  simp [verify_google_token, Settings.getattr]

/-- C2: outcomes of `get_current_user` on the four kinds of bearer
token.  A token failing verification and a valid token whose subject
matches no stored user both give the handled 401 outcome, and a valid
token for a stored user returns that user; but a valid token whose
`sub` claim does not parse as a user id makes `int(user_id)` raise an
uncaught `ValueError` — a crash, not the handled failure the claim
states. -/
theorem C2_current_user_outcomes :
    get_current_user testSettings [alice] (.malformed "junk") 0
      = .error (.http 401 "Invalid or expired token")
    ∧ get_current_user testSettings []
        (create_access_token testSettings [("sub", .str "1")] none 0) 0
      = .error (.http 401 "User not found")
    ∧ get_current_user testSettings [alice]
        (create_access_token testSettings [("sub", .str "1")] none 0) 0
      = .ok alice
    ∧ get_current_user testSettings [alice]
        (create_access_token testSettings [("sub", .str "abc")] none 0) 0
      = .error .pyValueError :=
  ⟨rfl, rfl, rfl, rfl⟩

/-- C10: `register` creates the user with exactly the role carried by
the request (the pydantic default `STUDENT` applies only when the field
is omitted), and the route has no authentication dependency — in
particular a registration request carrying role ADMIN creates an ADMIN
user. -/
theorem C10_register_role_from_request :
    (∀ (hashPassword : String → String) (db : List User) (req : UserCreate),
        findByEmail db req.email = none →
        ∃ u, register hashPassword db req = .ok (u, db ++ [u])
          ∧ u.role = req.role ∧ u.hashed_password = some (hashPassword req.password))
    ∧ (∀ n e p, ({ name := n, email := e, password := p } : UserCreate).role
        = UserRole.STUDENT)
    ∧ (∃ req : UserCreate, ∃ u : User,
        register (fun p => p) [] req = .ok (u, [u]) ∧ u.role = UserRole.ADMIN) := by
  refine ⟨?_, fun n e p => rfl,
    ⟨{ name := "A", email := "a@x.com", password := "pw", role := .ADMIN },
     _, rfl, rfl⟩⟩
  intro hashPassword db req h
  refine ⟨{ id := nextId db, email := req.email, name := req.name,
            hashed_password := some (hashPassword req.password),
            role := req.role, avatar := none, department := req.department,
            google_id := none }, ?_, rfl, rfl⟩
  simp [register, h]

/-- A registration request that omits the optional role field. -/
def plainRequest : UserCreate :=
  { name := "A", email := "a@x.com", password := "pw" }

/-- Witness for C10: registering on an empty store succeeds and the
created user carries the request's role. -/
theorem C10_register_role_witness :
    ∃ u, register (fun p => p) [] plainRequest = .ok (u, [] ++ [u])
      ∧ u.role = plainRequest.role
      ∧ u.hashed_password = some ((fun p => p) "pw") :=
  C10_register_role_from_request.1 (fun p => p) [] plainRequest rfl

/-- C6: for every claims dictionary carrying a (string) subject and
every positive ttl, decoding a token immediately after it was issued
with that ttl succeeds and the decoded payload carries the original
subject claim unchanged. -/
theorem C6_issue_then_verify_roundtrip (s : Settings) (c : Claims)
    (t now : Int) (subj : String) (ht : 0 < t)
    (hsub : dictGet c "sub" = some (.str subj)) :
    ∃ p, decode_token s (create_access_token s c (some t) now) now = some p
      ∧ dictGet p "sub" = some (.str subj) := by
  have ht0 : ¬ t = 0 := by omega
  have hexp : dictGet (dictSet c "exp" (.int (now + t))) "exp"
      = some (.int (now + t)) := dictGet_dictSet_self c "exp" _
  have hsub' : dictGet (dictSet c "exp" (.int (now + t))) "sub"
      = some (.str subj) := by
    rw [dictGet_dictSet_ne c "exp" "sub" _ (by decide)]
    exact hsub
  have hlt : ¬ (now + t < now) := by omega
  refine ⟨dictSet c "exp" (.int (now + t)), ?_, hsub'⟩
  simp [create_access_token, jwtEncode, decode_token, jwtDecode, ht0,
    hexp, hsub', hlt]

/-- Witness for C6: a concrete round-trip with subject "123" and a
60-second ttl. -/
theorem C6_issue_then_verify_witness :
    ∃ p, decode_token testSettings
        (create_access_token testSettings [("sub", .str "123")] (some 60) 0) 0
        = some p
      ∧ dictGet p "sub" = some (.str "123") :=
  C6_issue_then_verify_roundtrip testSettings [("sub", .str "123")] 60 0 "123"
    (by decide) rfl

/-- C7: token verification is total — it returns the decoded claims or
`None`, never letting `JWTError` escape — and in particular a
structurally malformed token, a token issued already expired
(ttl = -1 second), and a token signed with a different secret key all
decode to `None`. -/
theorem C7_decode_token_invalid_cases (s : Settings) (raw : String)
    (c payload : Claims) (k a : String) (t : Token) (now : Int)
    (hk : k ≠ s.secret_key) :
    decode_token s (.malformed raw) now = none
    ∧ decode_token s (create_access_token s c (some (-1)) now) now = none
    ∧ decode_token s (.signed payload k a) now = none
    ∧ (decode_token s t now = none ∨ ∃ p, decode_token s t now = some p) := by
  refine ⟨rfl, ?_, ?_, ?_⟩
  · have hexp : dictGet (dictSet c "exp" (.int (now + -1))) "exp"
        = some (.int (now + -1)) := dictGet_dictSet_self c "exp" _
    have hlt : now + -1 < now := by omega
    simp [create_access_token, jwtEncode, decode_token, jwtDecode, hexp, hlt]
  · simp [decode_token, jwtDecode, hk]
  · cases h : decode_token s t now with
    | none => exact Or.inl rfl
    | some p => exact Or.inr ⟨p, rfl⟩

/-- Witness for C7: a token signed with the key "otherkey" (different
from the configured secret) decodes to `None`. -/
theorem C7_decode_token_invalid_witness :
    decode_token testSettings
      (.signed [("sub", .str "1")] "otherkey" "HS256") 0 = none :=
  (C7_decode_token_invalid_cases testSettings "junk" [("sub", .str "1")]
    [("sub", .str "1")] "otherkey" "HS256" (.malformed "junk") 0
    (by decide)).2.2.1

/-- C3: `login` produces the identical externally observable failure —
HTTP 401 with detail "Invalid email or password" — in all three failing
cases: the email matches no user, the matched user has no (truthy)
password hash, and the password fails verification against a well-formed
hash. -/
theorem C3_login_uniform_failure (s : Settings)
    (argonVerify : String → String → Bool) (db : List User)
    (email password : String) (now : Int)
    (hcase :
      findByEmail db email = none
      ∨ (∃ u, findByEmail db email = some u
          ∧ (u.hashed_password = none ∨ u.hashed_password = some ""))
      ∨ (∃ u h', findByEmail db email = some u
          ∧ u.hashed_password = some h' ∧ h' ≠ ""
          ∧ argon2Identified h' = true ∧ argonVerify password h' = false)) :
    login s argonVerify db ⟨email, password⟩ now
      = .error (.http 401 "Invalid email or password") := by
  rcases hcase with h | ⟨u, hu, hpw | hpw⟩ | ⟨u, h', hu, hpw, hne, hid, hv⟩
  · simp [login, authenticate_user, h]
  · simp [login, authenticate_user, hu, hpw]
  · simp [login, authenticate_user, hu, hpw]
  · simp [login, authenticate_user, verify_password, hu, hpw, hne, hid, hv]

/-- Witness for C3: the three failing cases on concrete stores — an
empty store, a store holding only the federation-only user `bob`, and a
store holding `alice` with a verifier rejecting the password — all
produce the same 401 outcome. -/
theorem C3_login_uniform_failure_witness :
    login testSettings (fun _ _ => false) [] ⟨"a@x.com", "pw"⟩ 0
      = .error (.http 401 "Invalid email or password")
    ∧ login testSettings (fun _ _ => false) [bob] ⟨"b@x.com", "pw"⟩ 0
      = .error (.http 401 "Invalid email or password")
    ∧ login testSettings (fun _ _ => false) [alice] ⟨"A@x.com", "wrong"⟩ 0
      = .error (.http 401 "Invalid email or password") :=
  ⟨C3_login_uniform_failure testSettings (fun _ _ => false) [] "a@x.com" "pw" 0
      (Or.inl rfl),
   C3_login_uniform_failure testSettings (fun _ _ => false) [bob] "b@x.com" "pw" 0
      (Or.inr (Or.inl ⟨bob, rfl, Or.inl rfl⟩)),
   C3_login_uniform_failure testSettings (fun _ _ => false) [alice] "A@x.com"
      "wrong" 0
      (Or.inr (Or.inr ⟨alice, _, rfl, rfl, by decide, by decide, rfl⟩))⟩

/-- Counterexample to C8 as stated: on the unidentifiable stored hash
"garbage", `verify_password` raises `UnknownHashError` instead of
returning false, the error propagates uncaught through
`authenticate_user` and the `login` route, and the resulting outcome is
distinct from the handled 401 outcome a password mismatch produces — so
callers do not treat it identically to a mismatch. -/
theorem C8_malformed_hash_counterexample :
    verify_password (fun _ _ => true) "pw" "garbage" = .error .unknownHash
    ∧ authenticate_user (fun _ _ => true)
        [{ alice with hashed_password := some "garbage" }] "A@x.com" "pw"
      = .error .unknownHash
    ∧ login testSettings (fun _ _ => true)
        [{ alice with hashed_password := some "garbage" }] ⟨"A@x.com", "pw"⟩ 0
      = .error (.passlib .unknownHash)
    ∧ login testSettings (fun _ _ => false) [alice] ⟨"A@x.com", "wrong"⟩ 0
      = .error (.http 401 "Invalid email or password")
    ∧ (LoginError.passlib .unknownHash
        ≠ LoginError.http 401 "Invalid email or password") :=
  ⟨rfl, rfl, rfl, rfl, by decide⟩

/-- C8 amended: on a stored hash the argon2 context cannot identify,
`verify_password` raises `UnknownHashError` (it does not return false),
and the error propagates uncaught through `authenticate_user` to the
caller. -/
theorem C8_malformed_hash_raises (argonVerify : String → String → Bool)
    (plain h' : String) (hm : argon2Identified h' = false) :
    verify_password argonVerify plain h' = .error .unknownHash
    ∧ (∀ (db : List User) (email password : String) (u : User),
        findByEmail db email = some u → u.hashed_password = some h' →
        h' ≠ "" →
        authenticate_user argonVerify db email password
          = .error .unknownHash) := by
  constructor
  · simp [verify_password, hm]
  · intro db email password u hu hpw hne
    simp [authenticate_user, verify_password, hu, hpw, hne, hm]

/-- Witness for the amended C8: the store holds `alice` with hash
"garbage"; login's credential check raises `UnknownHashError`. -/
theorem C8_malformed_hash_raises_witness :
    verify_password (fun _ _ => false) "pw" "garbage" = .error .unknownHash
    ∧ (∀ (db : List User) (email password : String) (u : User),
        findByEmail db email = some u → u.hashed_password = some "garbage" →
        "garbage" ≠ "" →
        authenticate_user (fun _ _ => false) db email password
          = .error .unknownHash) :=
  C8_malformed_hash_raises (fun _ _ => false) "pw" "garbage" (by decide)

/-- Counterexample to C9 as stated: the store holds `alice` whose email
is "A@x.com"; the query "a@x.com" differs only in letter case, yet the
local-login lookup finds nothing (login fails even with an
always-accepting verifier) and the federated email match fails too, so
`get_or_create_google_user` creates a second record instead of linking. -/
theorem C9_email_case_counterexample :
    alice.email = "A@x.com"
    ∧ findByEmail [alice] "a@x.com" = none
    ∧ authenticate_user (fun _ _ => true) [alice] "a@x.com" "pw" = .ok none
    ∧ ((get_or_create_google_user [alice] gLower).2).length = 2 :=
  ⟨rfl, rfl, rfl, rfl⟩

/-- C9 amended: email is a case-sensitive exact-match lookup key — an
email lookup only ever returns a user whose stored email equals the
query exactly, and when no stored email is exactly equal the lookup
finds nothing (so a query differing from a stored email only in letter
case does not find that user). -/
theorem C9_email_lookup_case_sensitive (db : List User) (e : String) :
    (∀ u, findByEmail db e = some u → u.email = e)
    ∧ ((∀ u ∈ db, u.email ≠ e) → findByEmail db e = none) := by
  induction db with
  | nil => exact ⟨fun u h => Option.noConfusion h, fun _ => rfl⟩
  | cons x rest ih =>
      constructor
      · intro u h
        by_cases hx : x.email = e
        · simp [findByEmail, hx] at h
          rw [← h]
          exact hx
        · simp [findByEmail, hx] at h
          exact ih.1 u h
      · intro hall
        have hx : ¬ x.email = e := hall x (by simp)
        simp [findByEmail, hx]
        exact ih.2 fun u hu => hall u (by simp [hu])

/-- Witness for the amended C9: on the store `[alice]`, a found user's
email is exactly the query, and the case-variant query "a@x.com"
matches nothing. -/
theorem C9_email_lookup_case_sensitive_witness :
    alice.email = "A@x.com" ∧ findByEmail [alice] "a@x.com" = none :=
  ⟨(C9_email_lookup_case_sensitive [alice] "A@x.com").1 alice rfl,
   (C9_email_lookup_case_sensitive [alice] "a@x.com").2 (by decide)⟩

/-! ## Lookup lemmas for the federated resolution -/

theorem findByGoogleId_some {db : List User} {g : String} {u : User}
    (h : findByGoogleId db g = some u) : u ∈ db ∧ u.google_id = some g := by
  induction db with
  | nil => cases h
  | cons x rest ih =>
      simp only [findByGoogleId] at h
      by_cases hx : x.google_id = some g
      · rw [if_pos hx] at h
        injection h with h
        subst h
        exact ⟨List.mem_cons_self x rest, hx⟩
      · rw [if_neg hx] at h
        obtain ⟨hmem, hgid⟩ := ih h
        exact ⟨List.mem_cons_of_mem x hmem, hgid⟩

theorem findByEmail_some {db : List User} {e : String} {u : User}
    (h : findByEmail db e = some u) : u ∈ db ∧ u.email = e := by
  induction db with
  | nil => cases h
  | cons x rest ih =>
      simp only [findByEmail] at h
      by_cases hx : x.email = e
      · rw [if_pos hx] at h
        injection h with h
        subst h
        exact ⟨List.mem_cons_self x rest, hx⟩
      · rw [if_neg hx] at h
        obtain ⟨hmem, he⟩ := ih h
        exact ⟨List.mem_cons_of_mem x hmem, he⟩

theorem findByGoogleId_eq_none {db : List User} {g : String}
    (h : ∀ u ∈ db, u.google_id ≠ some g) : findByGoogleId db g = none := by
  induction db with
  | nil => rfl
  | cons x rest ih =>
      simp only [findByGoogleId]
      rw [if_neg (h x (by simp))]
      exact ih fun u hu => h u (by simp [hu])

theorem findByEmail_eq_none {db : List User} {e : String}
    (h : ∀ u ∈ db, u.email ≠ e) : findByEmail db e = none := by
  induction db with
  | nil => rfl
  | cons x rest ih =>
      simp only [findByEmail]
      rw [if_neg (h x (by simp))]
      exact ih fun u hu => h u (by simp [hu])

theorem findByGoogleId_updateUser {db : List User} {g : String} (u u' : User)
    (hnone : findByGoogleId db g = none) (hu : u ∈ db)
    (hgid : u'.google_id = some g) :
    findByGoogleId (updateUser db u.id u') g = some u' := by
  induction db with
  | nil => cases hu
  | cons x rest ih =>
      simp only [findByGoogleId, updateUser, List.map_cons] at hnone ⊢
      by_cases hxg : x.google_id = some g
      · rw [if_pos hxg] at hnone
        cases hnone
      · rw [if_neg hxg] at hnone
        by_cases hxid : x.id = u.id
        · rw [if_pos hxid, if_pos hgid]
        · rw [if_neg hxid, if_neg hxg]
          have hu' : u ∈ rest := by
            rcases List.mem_cons.mp hu with h' | h'
            · subst h'
              exact absurd rfl hxid
            · exact h'
          exact ih hnone hu'

theorem findByGoogleId_append {db l2 : List User} {g : String}
    (h : findByGoogleId db g = none) :
    findByGoogleId (db ++ l2) g = findByGoogleId l2 g := by
  induction db with
  | nil => rfl
  | cons x rest ih =>
      simp only [findByGoogleId, List.cons_append] at h ⊢
      by_cases hx : x.google_id = some g
      · rw [if_pos hx] at h
        cases h
      · rw [if_neg hx] at h
        rw [if_neg hx]
        exact ih h

/-- C4: `get_or_create_google_user` follows the three-way branch in
priority order — a user matching the federated id is returned with the
store unchanged; otherwise a user matching the email gets the federated
id attached (adopting the identity's avatar exactly when the user's own
is falsy and the identity's truthy) and is returned with no second
record created; otherwise a new STUDENT user with the federated id,
email, name, avatar and no password hash is appended. -/
theorem C4_resolve_or_create_three_way (db : List User) (g : GoogleData) :
    (∀ u, findByGoogleId db g.google_id = some u →
        get_or_create_google_user db g = (u, db))
    ∧ (∀ u, findByGoogleId db g.google_id = none →
        findByEmail db g.email = some u →
        ∃ u', get_or_create_google_user db g = (u', updateUser db u.id u')
          ∧ u'.google_id = some g.google_id
          ∧ u'.email = u.email ∧ u'.name = u.name
          ∧ u'.hashed_password = u.hashed_password ∧ u'.role = u.role
          ∧ u'.avatar = (if ¬ truthy u.avatar ∧ truthy g.avatar then
              g.avatar else u.avatar)
          ∧ (updateUser db u.id u').length = db.length)
    ∧ (findByGoogleId db g.google_id = none → findByEmail db g.email = none →
        ∃ u', get_or_create_google_user db g = (u', db ++ [u'])
          ∧ u'.google_id = some g.google_id ∧ u'.email = g.email
          ∧ u'.name = g.name ∧ u'.avatar = g.avatar
          ∧ u'.role = UserRole.STUDENT ∧ u'.hashed_password = none) := by
  refine ⟨?_, ?_, ?_⟩
  · intro u hg
    simp [get_or_create_google_user, hg]
  · intro u hg he
    refine ⟨linkGoogle u g, ?_, rfl, rfl, rfl, rfl, rfl, rfl, ?_⟩
    · simp [get_or_create_google_user, hg, he]
    · simp [updateUser]
  · intro hg he
    refine ⟨newGoogleUser db g, ?_, rfl, rfl, rfl, rfl, rfl, rfl⟩
    simp [get_or_create_google_user, hg, he]

/-- A verified Google payload whose google id matches `bob`. -/
def gBob : GoogleData :=
  { google_id := "google-bob", email := "b@x.com", name := "Bob",
    avatar := none }

/-- A verified Google payload whose email matches `alice` exactly. -/
def gAlice : GoogleData :=
  { google_id := "google-new", email := "A@x.com", name := "Alice",
    avatar := some "https://pic/a" }

/-- Witness for C4: the three branches exercised on concrete stores —
`bob` found by google id and returned unchanged; `alice` found by email
and linked without a second record; a fresh STUDENT user created on an
empty store. -/
theorem C4_resolve_or_create_three_way_witness :
    get_or_create_google_user [bob] gBob = (bob, [bob])
    ∧ (∃ u', get_or_create_google_user [alice] gAlice
          = (u', updateUser [alice] alice.id u')
        ∧ u'.google_id = some gAlice.google_id
        ∧ u'.email = alice.email ∧ u'.name = alice.name
        ∧ u'.hashed_password = alice.hashed_password ∧ u'.role = alice.role
        ∧ u'.avatar = (if ¬ truthy alice.avatar ∧ truthy gAlice.avatar then
            gAlice.avatar else alice.avatar)
        ∧ (updateUser [alice] alice.id u').length = [alice].length)
    ∧ (∃ u', get_or_create_google_user [] gLower = (u', [] ++ [u'])
        ∧ u'.google_id = some gLower.google_id ∧ u'.email = gLower.email
        ∧ u'.name = gLower.name ∧ u'.avatar = gLower.avatar
        ∧ u'.role = UserRole.STUDENT ∧ u'.hashed_password = none) :=
  ⟨(C4_resolve_or_create_three_way [bob] gBob).1 bob rfl,
   (C4_resolve_or_create_three_way [alice] gAlice).2.1 alice rfl rfl,
   (C4_resolve_or_create_three_way [] gLower).2.2 rfl rfl⟩

/-- Resolving the same payload on the store a first resolution produced
reaches the found-by-google-id branch and changes nothing. -/
theorem get_or_create_fixpoint (db : List User) (g : GoogleData) :
    get_or_create_google_user (get_or_create_google_user db g).2 g
      = get_or_create_google_user db g := by
  cases hg : findByGoogleId db g.google_id with
  | some u => simp [get_or_create_google_user, hg]
  | none =>
      cases he : findByEmail db g.email with
      | some u =>
          have hfind := @findByGoogleId_updateUser db g.google_id u
            (linkGoogle u g) hg (findByEmail_some he).1 rfl
          simp [get_or_create_google_user, hg, he, hfind]
      | none =>
          have hfind : findByGoogleId (db ++ [newGoogleUser db g])
              g.google_id = some (newGoogleUser db g) := by
            rw [findByGoogleId_append hg]
            simp [findByGoogleId, newGoogleUser]
          simp [get_or_create_google_user, hg, he, hfind]

/-- C5: resolving an identical federated identity payload twice returns
the same user both times (hence the same id), the second call changes
the store in no way, and when the store initially matches the payload by
neither federated id nor email the pair of calls creates exactly one
user. -/
theorem C5_resolve_or_create_idempotent (db : List User) (g : GoogleData)
    (u₁ : User) (db₁ : List User)
    (h : get_or_create_google_user db g = (u₁, db₁)) :
    get_or_create_google_user db₁ g = (u₁, db₁)
    ∧ ((∀ u ∈ db, u.google_id ≠ some g.google_id ∧ u.email ≠ g.email) →
        db₁.length = db.length + 1) := by
  constructor
  · have hfix := get_or_create_fixpoint db g
    rw [h] at hfix
    simpa using hfix
  · intro hall
    have hg : findByGoogleId db g.google_id = none :=
      findByGoogleId_eq_none fun u hu => (hall u hu).1
    have he : findByEmail db g.email = none :=
      findByEmail_eq_none fun u hu => (hall u hu).2
    simp only [get_or_create_google_user, hg, he, Prod.mk.injEq] at h
    obtain ⟨-, hdb⟩ := h
    rw [← hdb]
    simp

/-- Witness for C5: the second resolution of `gLower` on the store the
first one produced returns the same user and the same store, and the
pair of calls created exactly one user. -/
theorem C5_resolve_or_create_idempotent_witness :
    get_or_create_google_user ([] ++ [newGoogleUser [] gLower]) gLower
      = (newGoogleUser [] gLower, [] ++ [newGoogleUser [] gLower])
    ∧ ([] ++ [newGoogleUser [] gLower] : List User).length
      = ([] : List User).length + 1 :=
  ⟨(C5_resolve_or_create_idempotent [] gLower (newGoogleUser [] gLower)
      ([] ++ [newGoogleUser [] gLower]) rfl).1,
   (C5_resolve_or_create_idempotent [] gLower (newGoogleUser [] gLower)
      ([] ++ [newGoogleUser [] gLower]) rfl).2 (by simp)⟩

end NextStep
